import Mathlib

/-!
Verification of the homehive-backend payment-event reconciliation core:
the Stripe webhook handler (`0011_fetch_stripe_webhook.js`) and its
downstream update-payment endpoint (`0012_update_stripe_payments.js`).

The JavaScript is shallowly embedded: JS runtime values become `JSValue`,
optional chaining becomes `getField` (returning `undefv` off objects),
`Boolean(x)` becomes `jsTruthy`, `typeof` becomes `jsTypeof`, and
`Object.keys` becomes `objKeys` (returning `none` where JS throws a
`TypeError`, i.e. on `undefined`/`null`). Handlers are modelled as pure
functions from their inputs (plus booleans standing for the success of
the external fetch / database / email collaborators) to an HTTP result
together with the list of side effects they perform.
-/

/-- JavaScript runtime values, restricted to the shapes the webhook code handles. -/
inductive JSValue where
  | undefv : JSValue
  | nullv : JSValue
  | boolv : Bool → JSValue
  | str : String → JSValue
  | num : Int → JSValue
  | obj : List (String × JSValue) → JSValue

/-- Look a key up in a JS object's field list (first occurrence wins, as in JS). -/
def assocFind (k : String) : List (String × JSValue) → Option JSValue
  | [] => none
  | (k₁, v) :: rest => if k₁ = k then some v else assocFind k rest

/-- Property access with optional chaining: `v?.k`. Off an object it yields `undefined`. -/
def getField (v : JSValue) (k : String) : JSValue :=
  match v with
  | .obj fields => (assocFind k fields).getD .undefv
  | _ => .undefv

/-- JS truthiness, as used by `Boolean(data?.createdBy)` and `if (data?.metadata)`. -/
def jsTruthy : JSValue → Bool
  | .undefv => false
  | .nullv => false
  | .boolv b => b
  | .str s => s != ""
  | .num n => n != 0
  | .obj _ => true

/-- The JS `typeof` operator (note `typeof null === "object"`). -/
def jsTypeof : JSValue → String
  | .undefv => "undefined"
  | .nullv => "object"
  | .boolv _ => "boolean"
  | .str _ => "string"
  | .num _ => "number"
  | .obj _ => "object"

/-- The JS `Object.keys`: `none` models the `TypeError` thrown on `undefined`/`null`;
strings enumerate their index keys; other primitives give no keys. -/
def objKeys : JSValue → Option (List String)
  | .undefv => none
  | .nullv => none
  | .obj fields => some (fields.map Prod.fst)
  | .str s => some ((List.range s.length).map toString)
  | _ => some []

/-- String rendering of a JS value inside a template literal. -/
def jsDisplay : JSValue → String
  | .undefv => "undefined"
  | .nullv => "null"
  | .boolv b => if b then "true" else "false"
  | .str s => s
  | .num n => toString n
  | .obj _ => "[object Object]"

/-- Body of an HTTP response: either plain text or a JSON object literal. -/
inductive RespBody where
  | text : String → RespBody
  | json : List (String × JSValue) → RespBody

/-- An HTTP response produced by a serverless handler. -/
structure HttpResponse where
  statusCode : Nat
  body : RespBody

/-- What a call to `updateDb` returns in JS: `null` (guard), a boolean, or a thrown error. -/
inductive JSRet where
  | nullRet : JSRet
  | boolRet : Bool → JSRet
  | thrown : JSRet

/-- Outcome of one `updateDb` call: the draft record POSTed to the update-payment
endpoint (if the fetch was reached) and the JS return value. -/
structure UpdateDbResult where
  posted : Option (List (String × JSValue))
  ret : JSRet

/-- Embedding of `updateDb` from `0011_fetch_stripe_webhook.js`. `fetchOk` stands for
`response.ok` of the outbound fetch and `now` for `dayjs().toISOString()`. The guard
returns `null` before the `try` block; `Object.keys(null)` would throw uncaught;
inside the `try`, a throw (including a failed fetch) is caught and `false` returned. -/
def updateDb (fetchOk : Bool) (now : String) (stripeEventType : String)
    (data : JSValue) : UpdateDbResult :=
  if stripeEventType = "" then ⟨none, .nullRet⟩
  else if jsTypeof data != "object" then ⟨none, .nullRet⟩
  else
    match objKeys data with
    | none => ⟨none, .thrown⟩
    | some ks =>
      if ks.length = 0 then ⟨none, .nullRet⟩
      else if jsTruthy (getField data "metadata") then
        let m := getField data "metadata"
        match objKeys (getField data "payment_method_options") with
        | none => ⟨none, .boolRet false⟩
        | some pmKeys =>
          let draftData : List (String × JSValue) :=
            [("tenantId", getField m "tenantId"),
             ("tenantEmail", getField m "customer_email"),
             ("propertyId", getField m "propertyId"),
             ("propertyOwnerId", getField m "propertyOwnerId"),
             ("rentMonth", getField m "rentMonth"),
             ("rentAmount", getField m "rentAmount"),
             ("additionalCharges", getField m "additionalCharges"),
             ("initialLateFee", getField m "initialLateFee"),
             ("dailyLateFee", getField m "dailyLateFee"),
             ("stripePaymentIntentID", getField data "payment_intent"),
             ("method", .str "stripe"),
             ("status", getField data "status"),
             ("stripeEventType", .str stripeEventType),
             ("paymentMethodType", (pmKeys.head?.map JSValue.str).getD .undefv),
             ("createdBy", getField m "tenantId"),
             ("createdOn", .str now),
             ("updatedBy", getField m "tenantId"),
             ("updatedOn", .str now)]
          ⟨some draftData, .boolRet fetchOk⟩
      else
        let draftData : List (String × JSValue) :=
          [("stripePaymentIntentID", getField data "id"),
           ("method", .str "stripe"),
           ("status", getField data "status"),
           ("amount", getField data "amount"),
           ("stripeEventType", .str stripeEventType),
           ("createdOn", .str now),
           ("updatedOn", .str now)]
        ⟨some draftData, .boolRet false⟩

/-- Embedding of `updateStripePaymentHandler`: the event-type dispatch. It returns
the list of `updateDb` invocations (event type together with the data argument)
that the switch performs; the default case performs none. -/
def updateStripePaymentHandler (stripeEventType : String) (eventDetails : JSValue) :
    List (String × JSValue) :=
  match stripeEventType with
  | "payment_intent.created" =>
      [(stripeEventType, .obj
        [("id", getField eventDetails "id"),
         ("amount", getField eventDetails "amount"),
         ("status", getField eventDetails "status")])]
  | "payment_intent.processing" =>
      [(stripeEventType, .obj
        [("id", getField eventDetails "id"),
         ("amount", getField eventDetails "amount"),
         ("status", getField eventDetails "status")])]
  | "payment_intent.succeeded" =>
      [(stripeEventType, .obj
        [("id", getField eventDetails "id"),
         ("amount", getField eventDetails "amount"),
         ("status", getField eventDetails "status")])]
  | "checkout.session.completed" => [(stripeEventType, eventDetails)]
  | "checkout.session.async_payment_succeeded" => [(stripeEventType, eventDetails)]
  | "checkout.session.async_payment_failed" => [(stripeEventType, eventDetails)]
  | "charge.failed" =>
      [(stripeEventType, .obj
        [("id", getField eventDetails "payment_intent"),
         ("amount", getField eventDetails "amount"),
         ("status", getField eventDetails "status"),
         ("paymentMethod", getField eventDetails "payment_method"),
         ("paymentMethodDetails", getField eventDetails "payment_method_details")])]
  | "charge.pending" =>
      [(stripeEventType, .obj
        [("id", getField eventDetails "payment_intent"),
         ("amount", getField eventDetails "amount"),
         ("status", getField eventDetails "status"),
         ("paymentMethod", getField eventDetails "payment_method"),
         ("paymentMethodDetails", getField eventDetails "payment_method_details")])]
  | "charge.succeeded" =>
      [(stripeEventType, .obj
        [("id", getField eventDetails "payment_intent"),
         ("amount", getField eventDetails "amount"),
         ("status", getField eventDetails "status"),
         ("paymentMethod", getField eventDetails "payment_method"),
         ("paymentMethodDetails", getField eventDetails "payment_method_details"),
         ("recieptURL", getField eventDetails "receipt_url")])]
  | "charge.updated" =>
      [(stripeEventType, .obj
        [("id", getField eventDetails "payment_intent"),
         ("amount", getField eventDetails "amount"),
         ("status", getField eventDetails "status"),
         ("paymentMethod", getField eventDetails "payment_method"),
         ("paymentMethodDetails", getField eventDetails "payment_method_details")])]
  | _ => []

/-- The event types the switch in `updateStripePaymentHandler` recognises. -/
def handledEventTypes : List String :=
  ["payment_intent.created", "payment_intent.processing", "payment_intent.succeeded",
   "checkout.session.completed", "checkout.session.async_payment_succeeded",
   "checkout.session.async_payment_failed",
   "charge.failed", "charge.pending", "charge.succeeded", "charge.updated"]

/-- The `updateDb` outcomes produced when the webhook dispatches one verified event. -/
def webhookDbResults (fetchOk : Bool) (now stripeEventType : String)
    (eventDetails : JSValue) : List UpdateDbResult :=
  (updateStripePaymentHandler stripeEventType eventDetails).map
    fun c => updateDb fetchOk now c.1 c.2

/-- Embedding of the webhook `handler` in `0011_fetch_stripe_webhook.js`.
`verified` is the outcome of `stripe.webhooks.constructEvent`: an error message on
signature failure, or the event type with its data object. The classifier is invoked
fire-and-forget; the 200 response does not depend on its outcome. -/
def webhookHandler (fetchOk : Bool) (now : String)
    (verified : Except String (String × JSValue)) :
    HttpResponse × List UpdateDbResult :=
  match verified with
  | .error msg => (⟨400, .text ("Webhook Error: " ++ msg)⟩, [])
  | .ok (t, eventDetails) =>
      (⟨200, .json [("received", .boolv true)]⟩, webhookDbResults fetchOk now t eventDetails)

/-- Side effects performed by the update-payment endpoint: a Firestore write
`db.collection(c).doc(id).set(fields, merge)` or an email fetch `{to, subject, text}`. -/
inductive Effect where
  | dbWrite : String → String → List (String × JSValue) → Effect
  | email : JSValue → String → String → Effect

/-- What the update-payment `handler` produces: an HTTP response, the bare
`return;` (JS `undefined`), or a rethrown error from the `catch` block. -/
inductive HandlerResult where
  | resp : HttpResponse → HandlerResult
  | undefRet : HandlerResult
  | thrown : HandlerResult

/-- The inbound request to the update-payment endpoint: the `key` query-string
parameter and the already-parsed JSON body. -/
structure UpdateEvent where
  queryKey : Option String
  body : JSValue

/-- Subject line of the payment-notification email in `0012_update_stripe_payments.js`. -/
def emailSubject : String := "Notification of payment attached."

/-- The plaintext body of the payment-notification email (template literal with the
record's rent fields interpolated). -/
def emailText (data : JSValue) : String :=
  "Hi there,\n\nAttached is your notification of payment.\n\nRent Month: "
    ++ jsDisplay (getField data "rentMonth")
    ++ "\nRent Amount: $" ++ jsDisplay (getField data "rentAmount")
    ++ "\nAdditional Charges: $" ++ jsDisplay (getField data "additionalCharges")
    ++ "\nInitial Late Fee: $" ++ jsDisplay (getField data "initialLateFee")
    ++ "\nDaily Late Fee: $" ++ jsDisplay (getField data "dailyLateFee")
    ++ "\n\nCurrent payment status: " ++ jsDisplay (getField data "status")
    ++ "\n\nThank you,\n\nThis is an auto-generated email. Please do not reply to this email."

/-- Embedding of the `handler` in `0012_update_stripe_payments.js`.
`isLocalDevTestEnv` reflects `VITE_DEVELOPMENT_ENV`, `adminAuthorizedKey` the admin
shared key, `dbOk` whether `docRef.set` succeeds, and `emailOk` the `response.ok`
of the email fetch. `doc(data.stripePaymentIntentID)` throws unless the field is a
string, which the `catch` block rethrows. On a non-ok email response the source
logs and executes a bare `return;`, yielding `undefined` instead of the 200 body. -/
def updateHandler (isLocalDevTestEnv : Bool) (adminAuthorizedKey : Option String)
    (dbOk emailOk : Bool) (event : UpdateEvent) : HandlerResult × List Effect :=
  if !isLocalDevTestEnv && event.queryKey != adminAuthorizedKey then
    (.resp ⟨401, .text "Unauthorized"⟩, [])
  else
    let data := event.body
    let containsMetadata := jsTruthy (getField data "createdBy")
    let draftCollection := if containsMetadata then "rents" else "rentalPayments"
    match getField data "stripePaymentIntentID", data with
    | .str docId, .obj fields =>
      if dbOk then
        let wr := Effect.dbWrite draftCollection docId fields
        if containsMetadata then
          let em := Effect.email (getField data "customer_email") emailSubject (emailText data)
          if emailOk then
            (.resp ⟨200, .json [("success", .boolv true), ("id", .str docId)]⟩, [wr, em])
          else (.undefRet, [wr, em])
        else (.resp ⟨200, .json [("success", .boolv true), ("id", .str docId)]⟩, [wr])
      else (.thrown, [])
    | _, _ => (.thrown, [])

/-- The `(collection, document id)` targets of the Firestore writes in an effect list. -/
def dbWriteTargets : List Effect → List (String × String)
  | [] => []
  | .dbWrite c docId _ :: rest => (c, docId) :: dbWriteTargets rest
  | .email _ _ _ :: rest => dbWriteTargets rest

/-- The `to` fields of the email calls in an effect list. -/
def emailRecipients : List Effect → List JSValue
  | [] => []
  | .email toAddr _ _ :: rest => toAddr :: emailRecipients rest
  | .dbWrite _ _ _ :: rest => emailRecipients rest

/-- A stored Firestore document: a partial map from field names to values. -/
def FDoc : Type := String → Option JSValue

/-- The Firestore state: collection name and document id to stored document. -/
def Store : Type := String → String → Option FDoc

/-- Firestore `set` with `{merge: true}`: fields named in the payload are written,
all other fields of a pre-existing document are preserved; with no pre-existing
document the payload alone is stored. -/
def setMerge (fields : List (String × JSValue)) (old : Option FDoc) : FDoc :=
  fun k =>
    match assocFind k fields with
    | some v => some v
    | none =>
      match old with
      | some d => d k
      | none => none

/-- Apply one merge-write at `(c, docId)` to the store. -/
def writeMerge (s : Store) (c docId : String) (fields : List (String × JSValue)) : Store :=
  fun c₁ id₁ => if c₁ = c ∧ id₁ = docId then some (setMerge fields (s c docId)) else s c₁ id₁

/-- One delivery of a record to the update-payment endpoint, seen as a store
transformer: collection selection and merge-write exactly as in the source
(`docRef.set(data, { merge: true })`); a record the source would throw on
leaves the store unchanged. -/
def deliver (s : Store) (data : JSValue) : Store :=
  let containsMetadata := jsTruthy (getField data "createdBy")
  let draftCollection := if containsMetadata then "rents" else "rentalPayments"
  match getField data "stripePaymentIntentID", data with
  | .str docId, .obj fields => writeMerge s draftCollection docId fields
  | _, _ => s

/-- Read one field of the stored document at `(c, docId)`. -/
def storeField (s : Store) (c docId k : String) : Option JSValue :=
  match s c docId with
  | some d => d k
  | none => none

/-- The store with no documents. -/
def emptyStore : Store := fun _ _ => none

/-- For one dispatched event, the `stripePaymentIntentID` carried by each record
POSTed to the update-payment endpoint — the document key it will be stored under. -/
def postedKeyFor (fetchOk : Bool) (now stripeEventType : String) (eventDetails : JSValue) :
    List (Option JSValue) :=
  (webhookDbResults fetchOk now stripeEventType eventDetails).map
    fun r => r.posted.bind (assocFind "stripePaymentIntentID")

/-- A sample metadata-bearing rent record, as `updateDb` forwards one to the
update-payment endpoint. -/
def sampleRentRecord : List (String × JSValue) :=
  [("tenantId", .str "tenant_1"),
   ("tenantEmail", .str "a@b.com"),
   ("propertyId", .str "prop_1"),
   ("propertyOwnerId", .str "owner_1"),
   ("rentMonth", .str "January"),
   ("rentAmount", .num 150000),
   ("additionalCharges", .num 0),
   ("initialLateFee", .num 0),
   ("dailyLateFee", .num 0),
   ("stripePaymentIntentID", .str "pi_123"),
   ("method", .str "stripe"),
   ("status", .str "complete"),
   ("stripeEventType", .str "checkout.session.completed"),
   ("paymentMethodType", .str "card"),
   ("createdBy", .str "tenant_1"),
   ("createdOn", .str "2026-01-01T00:00:00Z"),
   ("updatedBy", .str "tenant_1"),
   ("updatedOn", .str "2026-01-01T00:00:00Z")]

/-- A sample `checkout.session.completed` payload whose metadata carries
`customer_email = "a@b.com"`, as produced by the checkout-session creator. -/
def sampleCheckoutSession : JSValue :=
  .obj [("id", .str "cs_test_1"),
        ("payment_intent", .str "pi_123"),
        ("status", .str "complete"),
        ("customer_email", .str "a@b.com"),
        ("metadata", .obj
          [("tenantId", .str "tenant_1"),
           ("propertyId", .str "prop_1"),
           ("propertyOwnerId", .str "owner_1"),
           ("rentMonth", .str "January"),
           ("rentAmount", .num 150000),
           ("additionalCharges", .num 0),
           ("initialLateFee", .num 0),
           ("dailyLateFee", .num 0),
           ("customer_email", .str "a@b.com")]),
        ("payment_method_options", .obj [("card", .obj [])])]

/-- A sample charge payload whose own `id` differs from its `payment_intent`. -/
def sampleCharge : JSValue :=
  .obj [("id", .str "ch_1"),
        ("payment_intent", .str "pi_123"),
        ("amount", .num 150000),
        ("status", .str "succeeded"),
        ("payment_method", .str "pm_1"),
        ("payment_method_details", .obj [("type", .str "card")]),
        ("receipt_url", .str "https://receipts.example/1")]

/-- Merging the same fields twice into a document is the same as merging them once. -/
theorem setMerge_setMerge (fields : List (String × JSValue)) (old : Option FDoc) :
    setMerge fields (some (setMerge fields old)) = setMerge fields old := by
  funext k
  simp only [setMerge]
  cases h : assocFind k fields <;> simp [h]

/-- Repeating the same merge-write at the same key leaves the store unchanged. -/
theorem writeMerge_writeMerge (s : Store) (c docId : String)
    (fields : List (String × JSValue)) :
    writeMerge (writeMerge s c docId fields) c docId fields = writeMerge s c docId fields := by
  funext c₁ id₁
  simp only [writeMerge]
  by_cases hc : c₁ = c ∧ id₁ = docId
  · obtain ⟨h₁, h₂⟩ := hc
    subst h₁; subst h₂
    simp [setMerge_setMerge]
  · simp [hc]

/-- Delivering the same record twice to the recorder equals delivering it once. -/
theorem deliver_deliver (s : Store) (data : JSValue) :
    deliver (deliver s data) data = deliver s data := by
  unfold deliver
  rcases h : getField data "stripePaymentIntentID" with _ | _ | b | s₁ | n | fs₁ <;>
    rcases data with _ | _ | b₂ | s₂ | n₂ | fs₂ <;>
      simp [h, writeMerge_writeMerge]

/-- Iterating a delivery `n + 1` times equals delivering once. -/
theorem deliver_iterate (data : JSValue) :
    ∀ (n : Nat) (s : Store), (fun st => deliver st data)^[n + 1] s = deliver s data := by
  intro n
  induction n with
  | zero => intro s; rfl
  | succ m ih =>
      intro s
      rw [Function.iterate_succ_apply]
      rw [ih (deliver s data)]
      exact deliver_deliver s data

/-- Helper: with a failing fetch, `updateDb` either returns `false` or never reached
the fetch at all. -/
theorem updateDb_fetchFail_cases (now t : String) (d : JSValue) :
    (updateDb false now t d).ret = .boolRet false ∨ (updateDb false now t d).posted = none := by
  unfold updateDb
  repeat' split
  all_goals first | exact Or.inl rfl | exact Or.inr rfl

/-- Claim C2: every write of the update-payment handler is a merge at the record's
payment-intent key: delivering the same record `n ≥ 1` times equals delivering it
once; a merge-write preserves every pre-existing field it does not name, and sets
exactly the fields it names — never a full replacement. -/
theorem recorder_writes_are_idempotent_merges :
    (∀ (s : Store) (data : JSValue) (n : Nat), 1 ≤ n →
        (fun st => deliver st data)^[n] s = deliver s data) ∧
    (∀ (s : Store) (c docId : String) (fields : List (String × JSValue)) (k : String),
        assocFind k fields = none →
        storeField (writeMerge s c docId fields) c docId k = storeField s c docId k) ∧
    (∀ (s : Store) (c docId : String) (fields : List (String × JSValue)) (k : String)
        (v : JSValue), assocFind k fields = some v →
        storeField (writeMerge s c docId fields) c docId k = some v) := by
  refine ⟨?_, ?_, ?_⟩
  · intro s data n hn
    obtain ⟨m, rfl⟩ : ∃ m, n = m + 1 := ⟨n - 1, (Nat.succ_pred_eq_of_pos hn).symm⟩
    exact deliver_iterate data m s
  · intro s c docId fields k hk
    simp only [storeField, writeMerge]
    simp [setMerge, hk]
  · intro s c docId fields k v hv
    simp only [storeField, writeMerge]
    simp [setMerge, hv]

/-- Witness for C2 at a concrete record, store and delivery count. -/
theorem recorder_writes_are_idempotent_merges_witness :
    ((fun st => deliver st (.obj sampleRentRecord))^[3] emptyStore =
        deliver emptyStore (.obj sampleRentRecord)) ∧
    storeField (writeMerge emptyStore "rents" "pi_123" [("status", .str "complete")])
        "rents" "pi_123" "rentMonth" =
      storeField emptyStore "rents" "pi_123" "rentMonth" ∧
    storeField (writeMerge emptyStore "rents" "pi_123" [("status", .str "complete")])
        "rents" "pi_123" "status" = some (.str "complete") :=
  ⟨recorder_writes_are_idempotent_merges.1 emptyStore (.obj sampleRentRecord) 3 (by decide),
   recorder_writes_are_idempotent_merges.2.1 emptyStore "rents" "pi_123"
     [("status", .str "complete")] "rentMonth" rfl,
   recorder_writes_are_idempotent_merges.2.2 emptyStore "rents" "pi_123"
     [("status", .str "complete")] "status" (.str "complete") rfl⟩

/-- Claim C5: a failed signature verification yields HTTP 400 with a
`Webhook Error` body, and no event reaches the classifier or the recorder. -/
theorem invalid_signature_rejected_400 (fetchOk : Bool) (now msg : String) :
    webhookHandler fetchOk now (.error msg) =
      (⟨400, .text ("Webhook Error: " ++ msg)⟩, []) := rfl

/-- Claim C6: once the signature verifies, the webhook responds 200
`received: true` whatever the downstream fetch outcome; a failing persistence
fetch is caught inside `updateDb`, which returns `false` instead of throwing. -/
theorem verified_webhook_returns_200 (fetchOk : Bool) (now t : String) (ev : JSValue) :
    (webhookHandler fetchOk now (.ok (t, ev))).1 = ⟨200, .json [("received", .boolv true)]⟩ ∧
    (∀ (t₁ : String) (d : JSValue) (ks : List (String × JSValue)),
        (updateDb false now t₁ d).posted = some ks →
        (updateDb false now t₁ d).ret = .boolRet false) := by
  refine ⟨rfl, ?_⟩
  intro t₁ d ks h
  rcases updateDb_fetchFail_cases now t₁ d with h₁ | h₁
  · exact h₁
  · rw [h₁] at h
    exact Option.noConfusion h

/-- Witness for C6 at a concrete verified event with a failing persistence fetch. -/
theorem verified_webhook_returns_200_witness :
    (webhookHandler false "T"
        (.ok ("payment_intent.created", .obj [("id", .str "pi_1")]))).1 =
      ⟨200, .json [("received", .boolv true)]⟩ ∧
    (updateDb false "T" "payment_intent.created"
        (.obj [("id", .str "pi_1"), ("amount", .num 5), ("status", .str "processing")])).ret =
      .boolRet false :=
  ⟨(verified_webhook_returns_200 false "T" "payment_intent.created"
      (.obj [("id", .str "pi_1")])).1,
   (verified_webhook_returns_200 false "T" "payment_intent.created"
      (.obj [("id", .str "pi_1")])).2 "payment_intent.created"
      (.obj [("id", .str "pi_1"), ("amount", .num 5), ("status", .str "processing")]) _ rfl⟩

/-- Claim C8: an event type outside the enumerated cases triggers no `updateDb`
call; the webhook still answers 200 with an empty result set. -/
theorem unknown_event_type_skipped (fetchOk : Bool) (now t : String) (ev : JSValue)
    (h : t ∉ handledEventTypes) :
    updateStripePaymentHandler t ev = [] ∧
    webhookHandler fetchOk now (.ok (t, ev)) =
      (⟨200, .json [("received", .boolv true)]⟩, []) := by
  simp only [handledEventTypes, List.mem_cons, List.not_mem_nil, or_false] at h
  push_neg at h
  obtain ⟨h₁, h₂, h₃, h₄, h₅, h₆, h₇, h₈, h₉, h₁₀⟩ := h
  have hske : updateStripePaymentHandler t ev = [] := by
    unfold updateStripePaymentHandler
    split <;> simp_all
  exact ⟨hske, by simp [webhookHandler, webhookDbResults, hske]⟩

/-- Witness for C8 at the `customer.created` event type. -/
theorem unknown_event_type_skipped_witness :
    updateStripePaymentHandler "customer.created" (.obj [("id", .str "cus_1")]) = [] ∧
    webhookHandler true "T" (.ok ("customer.created", .obj [("id", .str "cus_1")])) =
      (⟨200, .json [("received", .boolv true)]⟩, []) :=
  unknown_event_type_skipped true "T" "customer.created"
    (.obj [("id", .str "cus_1")]) (by decide)

/-- Claim C9: in non-development mode, a missing or wrong admin key yields
HTTP 401 `Unauthorized` with no side effects — no parse, no write, no email. -/
theorem unauthorized_request_no_side_effects (adminAuthorizedKey qk : Option String)
    (dbOk emailOk : Bool) (body : JSValue) (h : qk ≠ adminAuthorizedKey) :
    updateHandler false adminAuthorizedKey dbOk emailOk ⟨qk, body⟩ =
      (.resp ⟨401, .text "Unauthorized"⟩, []) := by
  unfold updateHandler
  simp [bne_iff_ne, h]

/-- Witness for C9 with a wrong key. -/
theorem unauthorized_request_no_side_effects_witness :
    updateHandler false (some "adminkey") true true ⟨some "wrong", .obj sampleRentRecord⟩ =
      (.resp ⟨401, .text "Unauthorized"⟩, []) :=
  unauthorized_request_no_side_effects (some "adminkey") (some "wrong") true true
    (.obj sampleRentRecord) (by decide)

/-- Claim C10: the `updateDb` input guard — falsy event type, non-object data
(in the `typeof` sense), or an object with zero keys — returns `null` and makes
no outbound fetch, so no write and no email can result from such a call. -/
theorem updateDb_guard_returns_null (fetchOk : Bool) (now t : String) (data : JSValue)
    (h : t = "" ∨ jsTypeof data ≠ "object" ∨ data = .obj []) :
    updateDb fetchOk now t data = ⟨none, .nullRet⟩ := by
  rcases h with h | h | h
  · simp [updateDb, h]
  · by_cases ht : t = ""
    · simp [updateDb, ht]
    · simp [updateDb, ht, bne_iff_ne, h]
  · subst h
    by_cases ht : t = "" <;> simp [updateDb, ht, objKeys, jsTypeof]

/-- Witness for C10 at a zero-key object. -/
theorem updateDb_guard_returns_null_witness :
    updateDb true "T" "payment_intent.created" (.obj []) = ⟨none, .nullRet⟩ :=
  updateDb_guard_returns_null true "T" "payment_intent.created" (.obj [])
    (Or.inr (Or.inr rfl))

/-- Claim C3: an authorized record whose write succeeds is written to exactly one
partition — `rents` iff its `createdBy` marker is a non-empty string, else
`rentalPayments` — and in both the document key is the record's
`stripePaymentIntentID`. -/
theorem record_partition_routing (isDev : Bool) (adminKey qk : Option String)
    (emailOk : Bool) (fields : List (String × JSValue)) (docId : String)
    (hAuth : isDev = true ∨ qk = adminKey)
    (hDoc : getField (.obj fields) "stripePaymentIntentID" = .str docId) :
    dbWriteTargets (updateHandler isDev adminKey true emailOk ⟨qk, .obj fields⟩).2 =
      [(if jsTruthy (getField (.obj fields) "createdBy") then "rents" else "rentalPayments",
        docId)] ∧
    (∀ s₁ : String, getField (.obj fields) "createdBy" = .str s₁ → s₁ ≠ "" →
       dbWriteTargets (updateHandler isDev adminKey true emailOk ⟨qk, .obj fields⟩).2 =
         [("rents", docId)]) ∧
    ((getField (.obj fields) "createdBy" = .undefv ∨
        getField (.obj fields) "createdBy" = .str "") →
       dbWriteTargets (updateHandler isDev adminKey true emailOk ⟨qk, .obj fields⟩).2 =
         [("rentalPayments", docId)]) := by
  have hMain :
      dbWriteTargets (updateHandler isDev adminKey true emailOk ⟨qk, .obj fields⟩).2 =
        [(if jsTruthy (getField (.obj fields) "createdBy") then "rents" else "rentalPayments",
          docId)] := by
    rcases hAuth with hA | hA <;> subst hA <;> unfold updateHandler <;>
      by_cases hm : jsTruthy (getField (.obj fields) "createdBy") <;>
        cases emailOk <;> simp [hDoc, hm, dbWriteTargets]
  refine ⟨hMain, ?_, ?_⟩
  · intro s₁ h₁ h₂
    rw [hMain, h₁]
    simp [jsTruthy, h₂]
  · intro h₁
    rw [hMain]
    rcases h₁ with h | h <;> rw [h] <;> simp [jsTruthy]

/-- Witness for C3: the sample rent record routes to `rents` at `pi_123`. -/
theorem record_partition_routing_witness :
    dbWriteTargets (updateHandler false (some "k") true true
        ⟨some "k", .obj sampleRentRecord⟩).2 = [("rents", "pi_123")] :=
  (record_partition_routing false (some "k") (some "k") true sampleRentRecord "pi_123"
      (Or.inr rfl) rfl).2.1 "tenant_1" rfl (by decide)

/-- Claim C4: for the charge event family the persisted document key is the
payload's `payment_intent` (and differs from the payload's own `id` whenever
those fields differ); for the payment-intent family it is the payload's own `id`. -/
theorem event_family_key_selection (fetchOk : Bool) (now : String) (ev : JSValue) :
    (∀ t ∈ ["charge.failed", "charge.pending", "charge.succeeded", "charge.updated"],
       postedKeyFor fetchOk now t ev = [some (getField ev "payment_intent")]) ∧
    (∀ t ∈ ["payment_intent.created", "payment_intent.processing",
            "payment_intent.succeeded"],
       postedKeyFor fetchOk now t ev = [some (getField ev "id")]) ∧
    (getField ev "payment_intent" ≠ getField ev "id" →
       ∀ t ∈ ["charge.failed", "charge.pending", "charge.succeeded", "charge.updated"],
         postedKeyFor fetchOk now t ev ≠ [some (getField ev "id")]) := by
  have hCharge : ∀ t ∈ ["charge.failed", "charge.pending", "charge.succeeded",
      "charge.updated"], postedKeyFor fetchOk now t ev =
        [some (getField ev "payment_intent")] := by
    intro t ht
    fin_cases ht <;> rfl
  refine ⟨hCharge, ?_, ?_⟩
  · intro t ht
    fin_cases ht <;> rfl
  · intro hne t ht
    rw [hCharge t ht]
    intro hcontra
    simp only [List.cons.injEq, Option.some.injEq, and_true] at hcontra
    exact hne hcontra

/-- Witness for C4 at a concrete charge whose `id` and `payment_intent` differ. -/
theorem event_family_key_selection_witness :
    postedKeyFor true "T" "charge.succeeded" sampleCharge =
      [some (getField sampleCharge "payment_intent")] ∧
    postedKeyFor true "T" "payment_intent.succeeded" sampleCharge =
      [some (getField sampleCharge "id")] ∧
    postedKeyFor true "T" "charge.succeeded" sampleCharge ≠
      [some (getField sampleCharge "id")] := by
  have h := event_family_key_selection true "T" sampleCharge
  refine ⟨h.1 "charge.succeeded" (by simp), h.2.1 "payment_intent.succeeded" (by simp),
    h.2.2 ?_ "charge.succeeded" (by simp)⟩
  show JSValue.str "pi_123" ≠ JSValue.str "ch_1"
  intro hcontra
  injection hcontra with hs
  simp at hs

/-- Claim C1 evaluated at the failing input (code bug): a
`checkout.session.completed` event whose metadata carries
`customer_email = "a@b.com"` produces exactly one email call, but its `to`
field is `undefined` — the forwarded record stores the address under
`tenantEmail` while the update-payment handler reads `data?.customer_email`. -/
theorem checkout_email_recipient_undefined :
    getField (getField sampleCheckoutSession "metadata") "customer_email" =
      .str "a@b.com" ∧
    ((updateDb true "T" "checkout.session.completed" sampleCheckoutSession).posted.bind
        (assocFind "tenantEmail")) = some (.str "a@b.com") ∧
    ((updateDb true "T" "checkout.session.completed" sampleCheckoutSession).posted.map
        (fun d => emailRecipients
          (updateHandler false (some "k") true true ⟨some "k", .obj d⟩).2)) =
      some [.undefv] := by
  refine ⟨rfl, rfl, rfl⟩

/-- Claim C7 evaluated at the failing input (code bug): with a successful
database write but a non-ok email response, the handler hits the bare
`return;` and yields `undefined` instead of the 200 success body — though the
merge-write already happened, and with an ok email response the 200 body is
returned. -/
theorem email_failure_drops_success_response :
    (updateHandler false (some "k") true false ⟨some "k", .obj sampleRentRecord⟩).1 =
      .undefRet ∧
    dbWriteTargets
        (updateHandler false (some "k") true false ⟨some "k", .obj sampleRentRecord⟩).2 =
      [("rents", "pi_123")] ∧
    (updateHandler false (some "k") true true ⟨some "k", .obj sampleRentRecord⟩).1 =
      .resp ⟨200, .json [("success", .boolv true), ("id", .str "pi_123")]⟩ := by
  refine ⟨rfl, rfl, rfl⟩
